import Mathlib

/-!
Shallow embedding of `model/PrivateVolume.cpp` from the vold repository.

External collaborators (the device-mapper layer, device-node helpers,
encryption setup, filesystem drivers, the metadata listener) are modelled
as oracles carried in environment records.  Each lifecycle operation of
`PrivateVolume` becomes a pure Lean function from its environment to a
result record capturing the returned `status_t` together with the
externally visible effects the C++ code performs (which collaborator calls
were made, how many delete attempts happened, which directories were
prepared, whether the raw device node still exists, ...).
-/

namespace Vold

/-- Success status (`OK` in the source is `0`). -/
def okStatus : Int := 0

/-- POSIX `EIO` error number; the source returns `-eio` as its I/O error. -/
def eio : Int := 5

/-- POSIX `EINVAL` error number; `doFormat` returns `-einval` for an
unsupported explicit filesystem type. -/
def einval : Int := 22

/-- Outcome of one `DeleteDevice` / `DeleteDeviceIfExists` call on the
device-mapper collaborator: success (`ret == true`), failure with
`errno == EBUSY`, or failure with any other `errno`. -/
inductive DeleteOutcome
  | ok
  | busy
  | err
deriving DecidableEq

/-- The busy-retry loop of `PrivateVolume::doCreate` (lines 79-91) and
`PrivateVolume::doDestroy` (lines 127-139):
`tries = 10; while (tries-- > 0) { ret = delete(...); if (ret || errno != EBUSY) break; sleep; }`.
The oracle `d` gives the outcome of the delete call on each attempt
(0-based).  Returns the final outcome (`.busy` encodes `ret == false` after
exhausting the tries, which in the source can only happen when every
attempt was busy) together with the number of delete attempts made. -/
def dmDeleteLoop (d : Nat → DeleteOutcome) : Nat → Nat → DeleteOutcome × Nat
  | 0, made => (DeleteOutcome.busy, made)
  | tries + 1, made =>
    match d made with
    | DeleteOutcome.busy => dmDeleteLoop d tries (made + 1)
    | o => (o, made + 1)

/-- The device-open poll of `PrivateVolume::doCreate` (lines 100-119):
the crypto block device is opened repeatedly, with up to
`RETRY_MOUNT_ATTEMPTS = 10` retries after the initial attempt.  The oracle
gives whether the `open` call succeeds on each attempt (0-based). -/
def openPoll (openOk : Nat → Bool) : Nat → Nat → Bool
  | 0, attempt => openOk attempt
  | r + 1, attempt => if openOk attempt then true else openPoll openOk r (attempt + 1)

/-- Environment (collaborator behaviour) for `PrivateVolume::doCreate`. -/
structure CreateEnv where
  /-- Return status of `CreateDeviceNode(mRawDevPath, mRawDevice)`; `0` is success. -/
  createNodeStatus : Int
  /-- Outcome of `dm.DeleteDeviceIfExists(getId())` on each attempt. -/
  dmDelete : Nat → DeleteOutcome
  /-- Whether `setup_ext_volume(getId(), mRawDevPath, mKeyRaw, &mDmDevPath)` succeeds. -/
  setupOk : Bool
  /-- Whether `open(mDmDevPath, O_WRONLY|O_CLOEXEC)` succeeds on each poll attempt. -/
  openOk : Nat → Bool

/-- Result of `PrivateVolume::doCreate`: the returned status plus the
externally visible state it leaves behind. -/
structure CreateResult where
  status : Int
  /-- Whether the raw device node at `mRawDevPath` exists when `doCreate` returns.
  The source never removes the node once `CreateDeviceNode` succeeded. -/
  nodeExists : Bool
  /-- Whether the dm block mapping was established by `setup_ext_volume`. -/
  mappingEstablished : Bool
  /-- Number of `DeleteDeviceIfExists` attempts made. -/
  deleteAttempts : Nat
deriving DecidableEq

/-- `PrivateVolume::doCreate` (lines 70-121). -/
def doCreate (env : CreateEnv) : CreateResult :=
  if env.createNodeStatus ≠ 0 then
    ⟨-eio, false, false, 0⟩
  else if (dmDeleteLoop env.dmDelete 10 0).1 ≠ DeleteOutcome.ok then
    ⟨-eio, true, false, (dmDeleteLoop env.dmDelete 10 0).2⟩
  else if env.setupOk = false then
    ⟨-eio, true, false, (dmDeleteLoop env.dmDelete 10 0).2⟩
  else if openPoll env.openOk 10 0 = false then
    ⟨-eio, true, true, (dmDeleteLoop env.dmDelete 10 0).2⟩
  else
    ⟨okStatus, true, true, (dmDeleteLoop env.dmDelete 10 0).2⟩

/-- Environment (collaborator behaviour) for `PrivateVolume::doDestroy`. -/
structure DestroyEnv where
  /-- Outcome of `dm.DeleteDevice(getId())` on each attempt. -/
  dmDelete : Nat → DeleteOutcome
  /-- Return status of `DestroyDeviceNode(mRawDevPath)`. -/
  destroyNodeStatus : Int

/-- Result of `PrivateVolume::doDestroy`. -/
structure DestroyResult where
  status : Int
  /-- Number of `DeleteDevice` attempts made. -/
  deleteAttempts : Nat
  /-- Whether `DestroyDeviceNode(mRawDevPath)` was invoked. -/
  nodeRemovalAttempted : Bool
deriving DecidableEq

/-- `PrivateVolume::doDestroy` (lines 123-141). -/
def doDestroy (env : DestroyEnv) : DestroyResult :=
  if (dmDeleteLoop env.dmDelete 10 0).1 ≠ DeleteOutcome.ok then
    ⟨-eio, (dmDeleteLoop env.dmDelete 10 0).2, false⟩
  else
    ⟨env.destroyNodeStatus, (dmDeleteLoop env.dmDelete 10 0).2, true⟩

/-- Environment for `PrivateVolume::readMetadata`: what the
`ReadMetadata(mDmDevPath, &mFsType, &mFsUuid, &mFsLabel)` collaborator
returns and produces, and whether a listener is registered. -/
structure MetadataEnv where
  readStatus : Int
  outFsType : String
  outFsUuid : String
  outFsLabel : String
  hasListener : Bool

/-- Result of `PrivateVolume::readMetadata`: the returned status and the
payload of the `onVolumeMetadataChanged` notification, when one was sent. -/
structure MetadataResult where
  status : Int
  notified : Option (String × String × String × String)
deriving DecidableEq

/-- `PrivateVolume::readMetadata` (lines 61-68): delegate the read, then
notify the listener (if any) with `(getId(), mFsType, mFsUuid, mFsLabel)`,
then return the collaborator status unchanged. -/
def readMetadata (volId : String) (env : MetadataEnv) : MetadataResult :=
  { status := env.readStatus,
    notified :=
      if env.hasListener then
        some (volId, env.outFsType, env.outFsUuid, env.outFsLabel)
      else
        none }

/-- One `PrepareDir(path, mode, uid, gid, attrs)` invocation (the 4-argument
overload is modelled with `attrs = 0`). -/
structure PrepEntry where
  path : String
  mode : Nat
  uid : Nat
  gid : Nat
  attrs : Nat
deriving DecidableEq

/-- `AID_ROOT` from `android_filesystem_config.h`. -/
def AID_ROOT : Nat := 0

/-- `AID_SYSTEM` from `android_filesystem_config.h`. -/
def AID_SYSTEM : Nat := 1000

/-- `AID_MEDIA_RW` from `android_filesystem_config.h`. -/
def AID_MEDIA_RW : Nat := 1023

/-- `AID_SHELL` from `android_filesystem_config.h`. -/
def AID_SHELL : Nat := 2000

/-- `FS_CASEFOLD_FL` from the kernel headers. -/
def FS_CASEFOLD_FL : Nat := 0x40000000

/-- The `attrs` value computed in `doMount` (lines 192-193):
`int attrs = 0; if (!IsSdcardfsUsed()) attrs = FS_CASEFOLD_FL;`. -/
def casefoldAttrs (sdcardfsUsed : Bool) : Nat :=
  if sdcardfsUsed then 0 else FS_CASEFOLD_FL

/-- The nine `PrepareDir` calls of `doMount` lines 196-204, in source
order, with their mode/uid/gid triples; `attrs` is applied to `media`. -/
def commonDirs (mPath : String) (attrs : Nat) : List PrepEntry :=
  [ ⟨mPath ++ "/app", 0o771, AID_SYSTEM, AID_SYSTEM, 0⟩,
    ⟨mPath ++ "/user", 0o511, AID_SYSTEM, AID_SYSTEM, 0⟩,
    ⟨mPath ++ "/user_de", 0o511, AID_SYSTEM, AID_SYSTEM, 0⟩,
    ⟨mPath ++ "/misc_ce", 0o511, AID_SYSTEM, AID_SYSTEM, 0⟩,
    ⟨mPath ++ "/misc_de", 0o511, AID_SYSTEM, AID_SYSTEM, 0⟩,
    ⟨mPath ++ "/media", 0o550, AID_MEDIA_RW, AID_MEDIA_RW, attrs⟩,
    ⟨mPath ++ "/media/0", 0o770, AID_MEDIA_RW, AID_MEDIA_RW, 0⟩,
    ⟨mPath ++ "/local", 0o751, AID_ROOT, AID_ROOT, 0⟩,
    ⟨mPath ++ "/local/tmp", 0o771, AID_SHELL, AID_SHELL, 0⟩ ]

/-- The short-circuiting `PrepareDir(...) || PrepareDir(...) || ...` chain:
entries are attempted in order until the first failing one (oracle `f`
gives the return status of each call).  Returns the attempted calls (in order)
and whether the chain failed. -/
def prepareDirs (f : String → Int) : List PrepEntry → List PrepEntry × Bool
  | [] => ([], false)
  | e :: rest =>
    if f e.path ≠ 0 then
      ([e], true)
    else
      ((e :: (prepareDirs f rest).1), (prepareDirs f rest).2)

/-- Environment (metadata read result and collaborator behaviour) for
`PrivateVolume::doMount`. -/
structure MountEnv where
  /-- Status returned by `readMetadata()`. -/
  readMetaStatus : Int
  /-- `mFsType` as populated by the metadata read. -/
  fsType : String
  /-- `mFsUuid` as populated by the metadata read. -/
  fsUuid : String
  /-- Status of `PrepareDir(mPath, 0700, AID_ROOT, AID_ROOT)`. -/
  prepareMountPointStatus : Int
  /-- Result of `ext4::Check(mDmDevPath, mPath)`. -/
  ext4CheckRes : Int
  /-- Status of `ext4::Mount(mDmDevPath, mPath, false, false, true)`. -/
  ext4MountStatus : Int
  /-- Result of `f2fs::Check(mDmDevPath)`. -/
  f2fsCheckRes : Int
  /-- Status of `f2fs::Mount(mDmDevPath, mPath)`. -/
  f2fsMountStatus : Int
  /-- `IsSdcardfsUsed()`. -/
  sdcardfsUsed : Bool
  /-- Return status of each `PrepareDir` call of lines 196-204, by path. -/
  prepareSubdirStatus : String → Int

/-- Result of `PrivateVolume::doMount`: returned status plus visible effects. -/
structure MountResult where
  status : Int
  /-- Value of `mPath` when `doMount` returns. -/
  path : String
  /-- Whether the filesystem was actually mounted (the driver mount call succeeded). -/
  mounted : Bool
  /-- Whether a filesystem check (`ext4::Check` / `f2fs::Check`) was invoked. -/
  checkCalled : Bool
  /-- Whether a driver mount (`ext4::Mount` / `f2fs::Mount`) was invoked. -/
  mountCalled : Bool
  /-- The `PrepareDir` calls of lines 196-204 that were attempted. -/
  prepared : List PrepEntry

/-- The tail of `doMount` after a successful driver mount (lines 190-209):
restorecon (best-effort, no status), then the nine `PrepareDir` calls; any
failure in the chain makes `doMount` return `-eio`. -/
def mountCommon (mPath : String) (env : MountEnv) : MountResult :=
  { status :=
      if (prepareDirs env.prepareSubdirStatus
            (commonDirs mPath (casefoldAttrs env.sdcardfsUsed))).2 then -eio else okStatus,
    path := mPath,
    mounted := true,
    checkCalled := true,
    mountCalled := true,
    prepared :=
      (prepareDirs env.prepareSubdirStatus
        (commonDirs mPath (casefoldAttrs env.sdcardfsUsed))).1 }

/-- `PrivateVolume::doMount` (lines 143-210).  `mPath0` is the value of the
`mPath` member on entry; the source overwrites it with
`/mnt/expand/<mFsUuid>` once the metadata read succeeded and never clears
it on failure. -/
def doMount (mPath0 : String) (env : MountEnv) : MountResult :=
  if env.readMetaStatus ≠ 0 then
    { status := -eio, path := mPath0, mounted := false,
      checkCalled := false, mountCalled := false, prepared := [] }
  else if env.prepareMountPointStatus ≠ 0 then
    { status := -eio, path := "/mnt/expand/" ++ env.fsUuid, mounted := false,
      checkCalled := false, mountCalled := false, prepared := [] }
  else if env.fsType = "ext4" then
    if env.ext4CheckRes = 0 ∨ env.ext4CheckRes = 1 then
      if env.ext4MountStatus ≠ 0 then
        { status := -eio, path := "/mnt/expand/" ++ env.fsUuid, mounted := false,
          checkCalled := true, mountCalled := true, prepared := [] }
      else
        mountCommon ("/mnt/expand/" ++ env.fsUuid) env
    else
      { status := -eio, path := "/mnt/expand/" ++ env.fsUuid, mounted := false,
        checkCalled := true, mountCalled := false, prepared := [] }
  else if env.fsType = "f2fs" then
    if env.f2fsCheckRes = 0 then
      if env.f2fsMountStatus ≠ 0 then
        { status := -eio, path := "/mnt/expand/" ++ env.fsUuid, mounted := false,
          checkCalled := true, mountCalled := true, prepared := [] }
      else
        mountCommon ("/mnt/expand/" ++ env.fsUuid) env
    else
      { status := -eio, path := "/mnt/expand/" ++ env.fsUuid, mounted := false,
        checkCalled := true, mountCalled := false, prepared := [] }
  else
    { status := -eio, path := "/mnt/expand/" ++ env.fsUuid, mounted := false,
      checkCalled := false, mountCalled := false, prepared := [] }

/-- Environment for `PrivateVolume::doUnmount`. -/
structure UnmountEnv where
  /-- Status of `rmdir(mPath)`; a failure is only logged. -/
  rmdirStatus : Int

/-- Result of `PrivateVolume::doUnmount`. -/
structure UnmountResult where
  status : Int
  /-- Value of `mPath` when `doUnmount` returns (the source never clears it). -/
  path : String
  /-- Whether `ForceUnmount(mPath)` was invoked. -/
  forceUnmountDone : Bool
  /-- Whether the `rmdir` of the mount point was attempted. -/
  rmdirTried : Bool
deriving DecidableEq

/-- `PrivateVolume::doUnmount` (lines 227-235): force-unmount, attempt the
`rmdir` (failure only logged), always return `OK`; `mPath` is untouched. -/
def doUnmount (mPath : String) (_env : UnmountEnv) : UnmountResult :=
  { status := okStatus, path := mPath, forceUnmountDone := true, rmdirTried := true }

/-- `kMajorBlockLoop` (line 50). -/
def kMajorBlockLoop : Nat := 7

/-- `kMajorBlockMmc` (line 51). -/
def kMajorBlockMmc : Nat := 179

/-- Environment for `PrivateVolume::doFormat`. -/
structure FormatEnv where
  /-- `major(mRawDevice)`. -/
  rawMajor : Nat
  /-- `IsVirtioBlkDevice(major)`. -/
  isVirtioBlk : Nat → Bool
  /-- `f2fs::IsSupported()`. -/
  f2fsSupported : Bool
  /-- Status of `ext4::Format(mDmDevPath, 0, "/data")`. -/
  ext4FormatStatus : Int
  /-- Status of `f2fs::Format(mDmDevPath, false, ...)`. -/
  f2fsFormatStatus : Int

/-- Result of `PrivateVolume::doFormat`. -/
structure FormatResult where
  status : Int
  resolvedFsType : String
  ext4FormatCalled : Bool
  f2fsFormatCalled : Bool
deriving DecidableEq

/-- The `"auto"` resolution of `doFormat` (lines 239-251). -/
def resolveAuto (env : FormatEnv) : String :=
  if (env.rawMajor = kMajorBlockMmc ∨ env.rawMajor = kMajorBlockLoop ∨
      env.isVirtioBlk env.rawMajor = true) ∧ env.f2fsSupported = true then
    "f2fs"
  else
    "ext4"

/-- `PrivateVolume::doFormat` (lines 237-270). -/
def doFormat (env : FormatEnv) (fsType : String) : FormatResult :=
  if (if fsType = "auto" then resolveAuto env else fsType) = "ext4" then
    { status := if env.ext4FormatStatus ≠ 0 then -eio else okStatus,
      resolvedFsType := "ext4",
      ext4FormatCalled := true, f2fsFormatCalled := false }
  else if (if fsType = "auto" then resolveAuto env else fsType) = "f2fs" then
    { status := if env.f2fsFormatStatus ≠ 0 then -eio else okStatus,
      resolvedFsType := "f2fs",
      ext4FormatCalled := false, f2fsFormatCalled := true }
  else
    { status := -einval,
      resolvedFsType := if fsType = "auto" then resolveAuto env else fsType,
      ext4FormatCalled := false, f2fsFormatCalled := false }

/-! ### Helper lemmas about the retry loops and the directory chain -/

/-- Unfolding equation for one iteration of the busy-retry loop. -/
theorem dmDeleteLoop_succ (d : Nat → DeleteOutcome) (t made : Nat) :
    dmDeleteLoop d (t + 1) made =
      match d made with
      | DeleteOutcome.busy => dmDeleteLoop d t (made + 1)
      | o => (o, made + 1) := rfl

/-- A non-busy outcome stops the retry loop at the current attempt. -/
theorem dmDeleteLoop_stop (d : Nat → DeleteOutcome) (t made : Nat)
    (h : d made ≠ DeleteOutcome.busy) :
    dmDeleteLoop d (t + 1) made = (d made, made + 1) := by
  rw [dmDeleteLoop_succ]
  cases hd : d made with
  | busy => exact absurd hd h
  | ok => rfl
  | err => rfl

/-- A busy outcome consumes one try and recurses. -/
theorem dmDeleteLoop_busy_step (d : Nat → DeleteOutcome) (t made : Nat)
    (h : d made = DeleteOutcome.busy) :
    dmDeleteLoop d (t + 1) made = dmDeleteLoop d t (made + 1) := by
  rw [dmDeleteLoop_succ, h]

/-- If the first `t` attempts (starting at `made`) are busy and attempt
`made + t` succeeds, the loop with `t + 1` tries succeeds after exactly
`t + 1` further attempts. -/
theorem dmDeleteLoop_ok_last (d : Nat → DeleteOutcome) :
    ∀ t made, (∀ i, i < t → d (made + i) = DeleteOutcome.busy) →
      d (made + t) = DeleteOutcome.ok →
      dmDeleteLoop d (t + 1) made = (DeleteOutcome.ok, made + t + 1) := by
  intro t
  induction t with
  | zero =>
    intro made _ hok
    have hok0 : d made = DeleteOutcome.ok := by simpa using hok
    rw [dmDeleteLoop_stop d 0 made (by rw [hok0]; intro hcon; cases hcon), hok0]
  | succ t ih =>
    intro made hb hok
    have hb0 : d made = DeleteOutcome.busy := by simpa using hb 0 (Nat.succ_pos t)
    rw [dmDeleteLoop_busy_step d (t + 1) made hb0]
    have hrest : ∀ i, i < t → d (made + 1 + i) = DeleteOutcome.busy := by
      intro i hi
      have := hb (i + 1) (by omega)
      have harith : made + (i + 1) = made + 1 + i := by omega
      rwa [harith] at this
    have hok1 : d (made + 1 + t) = DeleteOutcome.ok := by
      have harith : made + 1 + t = made + (t + 1) := by omega
      rw [harith]; exact hok
    rw [ih (made + 1) hrest hok1]
    congr 1
    omega

/-- An `open` that succeeds at the current attempt makes the poll succeed. -/
theorem openPoll_first (f : Nat → Bool) (r a : Nat) (h : f a = true) :
    openPoll f (r + 1) a = true := by
  show (if f a then true else openPoll f r (a + 1)) = true
  rw [h]
  rfl

/-- If no call in the chain fails, every entry is attempted. -/
theorem prepareDirs_complete (f : String → Int) :
    ∀ l : List PrepEntry, (prepareDirs f l).2 = false → (prepareDirs f l).1 = l := by
  intro l
  induction l with
  | nil => intro _; rfl
  | cons e rest ih =>
    intro h
    by_cases he : f e.path ≠ 0
    · simp [prepareDirs, he] at h
    · simp only [prepareDirs, if_neg he] at h ⊢
      rw [ih h]

/-- If some entry of the chain has a failing status, the chain fails. -/
theorem prepareDirs_fails (f : String → Int) :
    ∀ l : List PrepEntry, (∃ e ∈ l, f e.path ≠ 0) → (prepareDirs f l).2 = true := by
  intro l
  induction l with
  | nil => rintro ⟨e, he, _⟩; cases he
  | cons e rest ih =>
    rintro ⟨a, ha, hfa⟩
    by_cases he : f e.path ≠ 0
    · simp [prepareDirs, he]
    · simp only [prepareDirs, if_neg he]
      rcases List.mem_cons.mp ha with rfl | hmem
      · exact absurd hfa he
      · exact ih ⟨a, hmem, hfa⟩

/-- Busy on the first nine attempts and success on the tenth makes the
ten-try loop succeed with exactly ten attempts. -/
theorem dmDeleteLoop_busy9_ok10 (d : Nat → DeleteOutcome)
    (hb : ∀ i, i < 9 → d i = DeleteOutcome.busy) (hok : d 9 = DeleteOutcome.ok) :
    dmDeleteLoop d 10 0 = (DeleteOutcome.ok, 10) := by
  have h := dmDeleteLoop_ok_last d 9 0 (fun i hi => by simpa using hb i hi) (by simpa using hok)
  exact h

/-- A non-busy failure at the first attempt stops the ten-try loop after
exactly one attempt, with the failing outcome. -/
theorem dmDeleteLoop_err_first (d : Nat → DeleteOutcome)
    (herr : d 0 = DeleteOutcome.err) :
    dmDeleteLoop d 10 0 = (DeleteOutcome.err, 1) := by
  have hne : d 0 ≠ DeleteOutcome.busy := by rw [herr]; intro hcon; cases hcon
  have h := dmDeleteLoop_stop d 9 0 hne
  rw [herr] at h
  exact h

/-! ### Claims -/

/-- C1 (counterexample): it is not the case that the raw-device-node
removal is attempted for every outcome of the block-mapping removal — when
`DeleteDevice` fails with a non-busy reason on the first attempt,
`doDestroy` returns `-eio` without invoking `DestroyDeviceNode`. -/
theorem destroy_skips_node_removal_cex :
    (doDestroy { dmDelete := fun _ => DeleteOutcome.err,
                 destroyNodeStatus := okStatus }).status = -eio ∧
    (doDestroy { dmDelete := fun _ => DeleteOutcome.err,
                 destroyNodeStatus := okStatus }).nodeRemovalAttempted = false := by
  decide

/-- C1 (amended): in `doDestroy` the block-mapping removal runs first with
the busy-retry policy, and the raw-device-node removal is attempted exactly
when the block-mapping removal reports success (in which case the status of
`DestroyDeviceNode` is returned); if the block-mapping removal fails,
`doDestroy` returns `-eio` and the raw-device-node removal is not
attempted. -/
theorem destroy_removal_order_amended (env : DestroyEnv) :
    ((doDestroy env).nodeRemovalAttempted = true ↔
      (dmDeleteLoop env.dmDelete 10 0).1 = DeleteOutcome.ok) ∧
    ((dmDeleteLoop env.dmDelete 10 0).1 = DeleteOutcome.ok →
      (doDestroy env).status = env.destroyNodeStatus) ∧
    ((dmDeleteLoop env.dmDelete 10 0).1 ≠ DeleteOutcome.ok →
      (doDestroy env).status = -eio ∧ (doDestroy env).nodeRemovalAttempted = false) := by
  by_cases h : (dmDeleteLoop env.dmDelete 10 0).1 = DeleteOutcome.ok <;>
    simp [doDestroy, h]

/-- C1 witness: concrete run of the amended theorem. -/
theorem destroy_removal_order_amended_witness :
    (doDestroy { dmDelete := fun _ => DeleteOutcome.ok,
                 destroyNodeStatus := 7 }).status = 7 :=
  (destroy_removal_order_amended _).2.1 (by decide)

/-- C2 (counterexample): `doCreate` is not atomic with respect to the raw
device node — with the device node created, the stale mapping deleted, and
`setup_ext_volume` failing, `doCreate` returns `-eio` while the raw device
node remains in place. -/
theorem create_leaves_node_cex :
    (doCreate { createNodeStatus := 0, dmDelete := fun _ => DeleteOutcome.ok,
                setupOk := false, openOk := fun _ => true }).status = -eio ∧
    (doCreate { createNodeStatus := 0, dmDelete := fun _ => DeleteOutcome.ok,
                setupOk := false, openOk := fun _ => true }).nodeExists = true := by
  decide

/-- C2 (amended): `doCreate` either returns success with both the device
node and the block mapping established, or returns failure; on a failure of
any step after step 1, the raw device node created in step 1 is
deliberately left in place (creation is not rolled back; the paired
`doDestroy` is expected to remove it), and only a step-1 failure leaves no
node behind. -/
theorem create_non_transactional_amended (env : CreateEnv) :
    ((doCreate env).status = okStatus →
      (doCreate env).nodeExists = true ∧ (doCreate env).mappingEstablished = true) ∧
    (env.createNodeStatus = 0 → (doCreate env).nodeExists = true) ∧
    (env.createNodeStatus ≠ 0 →
      (doCreate env).status = -eio ∧ (doCreate env).nodeExists = false) := by
  unfold doCreate
  split_ifs with h1 h2 h3 h4 <;> simp_all [okStatus, eio]

/-- C2 witness: concrete run of the amended theorem. -/
theorem create_non_transactional_amended_witness :
    (doCreate { createNodeStatus := 0, dmDelete := fun _ => DeleteOutcome.ok,
                setupOk := true, openOk := fun _ => true }).nodeExists = true :=
  (create_non_transactional_amended _).2.1 rfl

/-- C4: busy-retry boundary for the block-mapping delete in `doCreate` and
`doDestroy`.  If the delete is busy on attempts 1–9 and succeeds on attempt
10 (and the remaining collaborators succeed), both operations succeed and
exactly 10 delete attempts are made; if the delete fails with a non-busy
reason on the first attempt, both operations fail with `-eio` after exactly
one delete attempt. -/
theorem retry_boundary (cenv : CreateEnv) (denv : DestroyEnv)
    (d2 : Nat → DeleteOutcome)
    (hb : ∀ i, i < 9 → cenv.dmDelete i = DeleteOutcome.busy)
    (hok : cenv.dmDelete 9 = DeleteOutcome.ok)
    (hd : denv.dmDelete = cenv.dmDelete)
    (hnode : cenv.createNodeStatus = 0)
    (hsetup : cenv.setupOk = true)
    (hopen : cenv.openOk 0 = true)
    (hdest : denv.destroyNodeStatus = okStatus)
    (herr : d2 0 = DeleteOutcome.err) :
    ((doCreate cenv).status = okStatus ∧ (doCreate cenv).deleteAttempts = 10) ∧
    ((doDestroy denv).status = okStatus ∧ (doDestroy denv).deleteAttempts = 10) ∧
    ((doCreate { cenv with dmDelete := d2 }).status = -eio ∧
      (doCreate { cenv with dmDelete := d2 }).deleteAttempts = 1) ∧
    ((doDestroy { denv with dmDelete := d2 }).status = -eio ∧
      (doDestroy { denv with dmDelete := d2 }).deleteAttempts = 1) := by
  have hl : dmDeleteLoop cenv.dmDelete 10 0 = (DeleteOutcome.ok, 10) :=
    dmDeleteLoop_busy9_ok10 _ hb hok
  have hl2 : dmDeleteLoop d2 10 0 = (DeleteOutcome.err, 1) :=
    dmDeleteLoop_err_first d2 herr
  have hld : dmDeleteLoop denv.dmDelete 10 0 = (DeleteOutcome.ok, 10) := by
    rw [hd]; exact hl
  have hopen10 : openPoll cenv.openOk 10 0 = true := openPoll_first cenv.openOk 9 0 hopen
  refine ⟨?_, ?_, ?_, ?_⟩
  · simp [doCreate, hnode, hl, hsetup, hopen10]
  · simp [doDestroy, hld, hdest]
  · simp [doCreate, hnode, hl2]
  · simp [doDestroy, hl2]

/-- C4 witness: concrete run of the retry-boundary theorem. -/
theorem retry_boundary_witness :
    (doCreate { createNodeStatus := 0,
                dmDelete := fun i => if i < 9 then DeleteOutcome.busy else DeleteOutcome.ok,
                setupOk := true, openOk := fun _ => true }).status = okStatus ∧
    (doCreate { createNodeStatus := 0,
                dmDelete := fun i => if i < 9 then DeleteOutcome.busy else DeleteOutcome.ok,
                setupOk := true, openOk := fun _ => true }).deleteAttempts = 10 :=
  (retry_boundary
    { createNodeStatus := 0,
      dmDelete := fun i => if i < 9 then DeleteOutcome.busy else DeleteOutcome.ok,
      setupOk := true, openOk := fun _ => true }
    { dmDelete := fun i => if i < 9 then DeleteOutcome.busy else DeleteOutcome.ok,
      destroyNodeStatus := okStatus }
    (fun _ => DeleteOutcome.err)
    (fun i hi => by simp [hi])
    (by simp)
    rfl rfl rfl rfl rfl rfl).1

/-- Behaviour of the post-mount tail: on success every directory of the
chain was prepared; if the `PrepareDir` call of some directory fails, the tail
returns `-eio`. -/
theorem mountCommon_spec (mPath : String) (env : MountEnv) :
    ((mountCommon mPath env).status = okStatus →
      (mountCommon mPath env).prepared =
        commonDirs mPath (casefoldAttrs env.sdcardfsUsed)) ∧
    ((∃ e ∈ commonDirs mPath (casefoldAttrs env.sdcardfsUsed),
        env.prepareSubdirStatus e.path ≠ 0) →
      (mountCommon mPath env).status = -eio) := by
  cases hfail : (prepareDirs env.prepareSubdirStatus
      (commonDirs mPath (casefoldAttrs env.sdcardfsUsed))).2 with
  | false =>
    constructor
    · intro _
      simp only [mountCommon]
      rw [prepareDirs_complete _ _ hfail]
    · intro hex
      have h := prepareDirs_fails env.prepareSubdirStatus _ hex
      rw [hfail] at h
      cases h
  | true =>
    constructor
    · intro h
      simp only [mountCommon, hfail, if_true] at h
      norm_num [okStatus, eio] at h
    · intro _
      simp [mountCommon, hfail]

/-- C3 (counterexample): the claimed invariant fails — a `doMount` whose
metadata read succeeds but whose filesystem type is unsupported returns
failure, leaves the volume unmounted, yet leaves `mPath` non-empty; and
`doUnmount` completes with success without clearing `mPath`. -/
theorem mountPath_iff_mounted_cex :
    (doMount "" { readMetaStatus := 0, fsType := "vfat", fsUuid := "0000-0000",
                  prepareMountPointStatus := 0, ext4CheckRes := 0, ext4MountStatus := 0,
                  f2fsCheckRes := 0, f2fsMountStatus := 0, sdcardfsUsed := true,
                  prepareSubdirStatus := fun _ => 0 }).status ≠ okStatus ∧
    (doMount "" { readMetaStatus := 0, fsType := "vfat", fsUuid := "0000-0000",
                  prepareMountPointStatus := 0, ext4CheckRes := 0, ext4MountStatus := 0,
                  f2fsCheckRes := 0, f2fsMountStatus := 0, sdcardfsUsed := true,
                  prepareSubdirStatus := fun _ => 0 }).mounted = false ∧
    (doMount "" { readMetaStatus := 0, fsType := "vfat", fsUuid := "0000-0000",
                  prepareMountPointStatus := 0, ext4CheckRes := 0, ext4MountStatus := 0,
                  f2fsCheckRes := 0, f2fsMountStatus := 0, sdcardfsUsed := true,
                  prepareSubdirStatus := fun _ => 0 }).path ≠ "" ∧
    (doUnmount "/mnt/expand/0000-0000" { rmdirStatus := 0 }).status = okStatus ∧
    (doUnmount "/mnt/expand/0000-0000" { rmdirStatus := 0 }).path = "/mnt/expand/0000-0000" := by
  decide

/-- C3 (amended): `mPath` is overwritten with `/mnt/expand/<fsUuid>` by
every `doMount` that gets past the metadata read — including runs that
subsequently fail — and `doUnmount` always returns success and never
clears `mPath`; the non-empty-iff-mounted equivalence is not maintained by
these operations. -/
theorem mountPath_persistence (p : String) (env : MountEnv) (uenv : UnmountEnv)
    (hm : env.readMetaStatus = 0) :
    (doMount p env).path = "/mnt/expand/" ++ env.fsUuid ∧
    (doUnmount p uenv).status = okStatus ∧
    (doUnmount p uenv).path = p := by
  refine ⟨?_, rfl, rfl⟩
  unfold doMount
  split_ifs <;> first | rfl | simp_all [mountCommon]

/-- C3 witness: concrete run of the amended theorem. -/
theorem mountPath_persistence_witness :
    (doMount "" { readMetaStatus := 0, fsType := "ext4", fsUuid := "u1",
                  prepareMountPointStatus := 0, ext4CheckRes := 2, ext4MountStatus := 0,
                  f2fsCheckRes := 0, f2fsMountStatus := 0, sdcardfsUsed := true,
                  prepareSubdirStatus := fun _ => 0 }).path = "/mnt/expand/" ++ "u1" :=
  (mountPath_persistence "" _ { rmdirStatus := 0 } rfl).1

/-- C5: `doMount` dispatches on the metadata `fsType` once the metadata
read and the mount-point preparation succeeded.  For `"ext4"` the check
must return 0 or 1 for the driver mount to be attempted, any other check
result yields `-eio` with no mount call; for `"f2fs"` only check result 0
is accepted; for any other `fsType`, `doMount` fails with `-eio` without
invoking a check or a mount. -/
theorem mount_fs_dispatch (p : String) (env : MountEnv)
    (hm : env.readMetaStatus = 0) (hp : env.prepareMountPointStatus = 0) :
    (env.fsType = "ext4" →
      ((env.ext4CheckRes = 0 ∨ env.ext4CheckRes = 1) →
        (doMount p env).checkCalled = true ∧ (doMount p env).mountCalled = true) ∧
      (¬(env.ext4CheckRes = 0 ∨ env.ext4CheckRes = 1) →
        (doMount p env).status = -eio ∧ (doMount p env).checkCalled = true ∧
        (doMount p env).mountCalled = false)) ∧
    (env.fsType = "f2fs" →
      (env.f2fsCheckRes = 0 →
        (doMount p env).checkCalled = true ∧ (doMount p env).mountCalled = true) ∧
      (env.f2fsCheckRes ≠ 0 →
        (doMount p env).status = -eio ∧ (doMount p env).checkCalled = true ∧
        (doMount p env).mountCalled = false)) ∧
    (env.fsType ≠ "ext4" → env.fsType ≠ "f2fs" →
      (doMount p env).status = -eio ∧ (doMount p env).checkCalled = false ∧
      (doMount p env).mountCalled = false) := by
  refine ⟨fun hfs => ⟨fun hchk => ?_, fun hchk => ?_⟩,
          fun hfs => ⟨fun hchk => ?_, fun hchk => ?_⟩,
          fun hne1 hne2 => ?_⟩
  · by_cases hmnt : env.ext4MountStatus ≠ 0 <;>
      simp [doMount, hm, hp, hfs, hchk, hmnt, mountCommon]
  · simp [doMount, hm, hp, hfs, hchk]
  · by_cases hmnt : env.f2fsMountStatus ≠ 0 <;>
      simp [doMount, hm, hp, hfs, hchk, hmnt, mountCommon]
  · simp [doMount, hm, hp, hfs, hchk]
  · simp [doMount, hm, hp, hne1, hne2]

/-- C5 witness: concrete run of the dispatch theorem on an unsupported
filesystem type. -/
theorem mount_fs_dispatch_witness :
    (doMount "" { readMetaStatus := 0, fsType := "vfat", fsUuid := "u2",
                  prepareMountPointStatus := 0, ext4CheckRes := 0, ext4MountStatus := 0,
                  f2fsCheckRes := 0, f2fsMountStatus := 0, sdcardfsUsed := true,
                  prepareSubdirStatus := fun _ => 0 }).status = -eio ∧
    (doMount "" { readMetaStatus := 0, fsType := "vfat", fsUuid := "u2",
                  prepareMountPointStatus := 0, ext4CheckRes := 0, ext4MountStatus := 0,
                  f2fsCheckRes := 0, f2fsMountStatus := 0, sdcardfsUsed := true,
                  prepareSubdirStatus := fun _ => 0 }).checkCalled = false ∧
    (doMount "" { readMetaStatus := 0, fsType := "vfat", fsUuid := "u2",
                  prepareMountPointStatus := 0, ext4CheckRes := 0, ext4MountStatus := 0,
                  f2fsCheckRes := 0, f2fsMountStatus := 0, sdcardfsUsed := true,
                  prepareSubdirStatus := fun _ => 0 }).mountCalled = false :=
  (mount_fs_dispatch "" _ rfl rfl).2.2 (by decide) (by decide)

/-- C6: every successful `doMount` performs exactly the nine `PrepareDir`
calls `app`, `user`, `user_de`, `misc_ce`, `misc_de`, `media`, `media/0`,
`local`, `local/tmp` under `mPath`, with the mode/uid/gid triples listed in
`commonDirs`; and if the volume was mounted but some directory of that set
has a failing `PrepareDir` status, `doMount` returns `-eio`. -/
theorem mount_prepared_layout (p : String) (env : MountEnv) :
    ((doMount p env).status = okStatus →
      (doMount p env).mounted = true ∧
      (doMount p env).prepared =
        commonDirs ("/mnt/expand/" ++ env.fsUuid) (casefoldAttrs env.sdcardfsUsed)) ∧
    ((doMount p env).mounted = true →
      (∃ e ∈ commonDirs ("/mnt/expand/" ++ env.fsUuid) (casefoldAttrs env.sdcardfsUsed),
          env.prepareSubdirStatus e.path ≠ 0) →
      (doMount p env).status = -eio) := by
  unfold doMount
  split_ifs <;>
    first
      | exact ⟨fun h => ⟨rfl, (mountCommon_spec _ env).1 h⟩,
               fun _ hex => (mountCommon_spec _ env).2 hex⟩
      | exact ⟨fun h => by norm_num [okStatus, eio] at h,
               fun h => by simp at h⟩

/-- C6 witness: concrete successful mount producing the full layout. -/
theorem mount_prepared_layout_witness :
    (doMount "" { readMetaStatus := 0, fsType := "ext4", fsUuid := "u3",
                  prepareMountPointStatus := 0, ext4CheckRes := 1, ext4MountStatus := 0,
                  f2fsCheckRes := 0, f2fsMountStatus := 0, sdcardfsUsed := true,
                  prepareSubdirStatus := fun _ => 0 }).mounted = true ∧
    (doMount "" { readMetaStatus := 0, fsType := "ext4", fsUuid := "u3",
                  prepareMountPointStatus := 0, ext4CheckRes := 1, ext4MountStatus := 0,
                  f2fsCheckRes := 0, f2fsMountStatus := 0, sdcardfsUsed := true,
                  prepareSubdirStatus := fun _ => 0 }).prepared =
      commonDirs ("/mnt/expand/" ++ "u3") (casefoldAttrs true) :=
  (mount_prepared_layout "" _).1 (by decide)

/-- C7: `doFormat("auto")` resolves the filesystem type by device class —
it resolves to `f2fs` exactly when the major number of the raw device is the
MMC class, the loop class, or a virtio-block class and `f2fs::IsSupported()`
holds; in every other case it resolves to `ext4`. -/
theorem format_auto_heuristic (env : FormatEnv) :
    (((env.rawMajor = kMajorBlockMmc ∨ env.rawMajor = kMajorBlockLoop ∨
        env.isVirtioBlk env.rawMajor = true) ∧ env.f2fsSupported = true) →
      (doFormat env "auto").resolvedFsType = "f2fs" ∧
      (doFormat env "auto").f2fsFormatCalled = true ∧
      (doFormat env "auto").ext4FormatCalled = false) ∧
    (¬((env.rawMajor = kMajorBlockMmc ∨ env.rawMajor = kMajorBlockLoop ∨
        env.isVirtioBlk env.rawMajor = true) ∧ env.f2fsSupported = true) →
      (doFormat env "auto").resolvedFsType = "ext4" ∧
      (doFormat env "auto").ext4FormatCalled = true ∧
      (doFormat env "auto").f2fsFormatCalled = false) := by
  constructor <;> intro h <;> simp [doFormat, resolveAuto, h]

/-- C7 witness: MMC-class device with f2fs available resolves to f2fs. -/
theorem format_auto_heuristic_witness :
    (doFormat { rawMajor := 179, isVirtioBlk := fun _ => false, f2fsSupported := true,
                ext4FormatStatus := 0, f2fsFormatStatus := 0 } "auto").resolvedFsType = "f2fs" :=
  ((format_auto_heuristic _).1 ⟨Or.inl rfl, rfl⟩).1

/-- C8: for every explicit `fsType` outside `auto`/`ext4`/`f2fs`,
`doFormat` returns `-einval` — a code distinct from the `-eio` used by the
other failure paths — and invokes neither format driver. -/
theorem format_unsupported_einval (env : FormatEnv) (t : String)
    (h1 : t ≠ "auto") (h2 : t ≠ "ext4") (h3 : t ≠ "f2fs") :
    (doFormat env t).status = -einval ∧
    (doFormat env t).ext4FormatCalled = false ∧
    (doFormat env t).f2fsFormatCalled = false ∧
    -einval ≠ -eio := by
  refine ⟨?_, ?_, ?_, by norm_num [einval, eio]⟩ <;> simp [doFormat, h1, h2, h3]

/-- C8 witness: `doFormat("zzz")`. -/
theorem format_unsupported_einval_witness :
    (doFormat { rawMajor := 179, isVirtioBlk := fun _ => false, f2fsSupported := true,
                ext4FormatStatus := 0, f2fsFormatStatus := 0 } "zzz").status = -einval :=
  (format_unsupported_einval _ "zzz" (by decide) (by decide) (by decide)).1

/-- C9: `readMetadata` returns exactly the status of the `ReadMetadata`
collaborator, and whenever a listener is registered it is notified with
`(identity, fsType, fsUuid, fsLabel)` — in every execution, regardless of
the status, with whatever values the read produced. -/
theorem readMetadata_propagation (volId : String) (env : MetadataEnv) :
    (readMetadata volId env).status = env.readStatus ∧
    (env.hasListener = true →
      (readMetadata volId env).notified =
        some (volId, env.outFsType, env.outFsUuid, env.outFsLabel)) := by
  refine ⟨rfl, fun h => ?_⟩
  simp [readMetadata, h]

/-- C9 witness: a failing read still notifies the registered listener. -/
theorem readMetadata_propagation_witness :
    (readMetadata "private:254,1"
        { readStatus := -eio, outFsType := "", outFsUuid := "", outFsLabel := "",
          hasListener := true }).status = -eio ∧
    (readMetadata "private:254,1"
        { readStatus := -eio, outFsType := "", outFsUuid := "", outFsLabel := "",
          hasListener := true }).notified = some ("private:254,1", "", "", "") :=
  ⟨(readMetadata_propagation _ _).1, (readMetadata_propagation _ _).2 rfl⟩

/-- C10: an explicit (non-`auto`) `fsType` is used unchanged — the device
class heuristic and the f2fs-availability probe have no effect.  For every
environment (any major number, f2fs available or not), an explicit
`"f2fs"` request invokes the f2fs format driver and an explicit `"ext4"`
request invokes the ext4 format driver. -/
theorem format_explicit_bypasses_heuristic (env : FormatEnv) :
    ((doFormat env "f2fs").resolvedFsType = "f2fs" ∧
      (doFormat env "f2fs").f2fsFormatCalled = true ∧
      (doFormat env "f2fs").ext4FormatCalled = false) ∧
    ((doFormat env "ext4").resolvedFsType = "ext4" ∧
      (doFormat env "ext4").ext4FormatCalled = true ∧
      (doFormat env "ext4").f2fsFormatCalled = false) := by
  constructor <;> simp [doFormat]

end Vold
